import Mathlib

/-!
Shallow embedding of the `job-rate-limiter` core (`Limiter` class,
src/unnamed/part_000).  Redis is modelled as an association-list store of
integer counters with an optional time-to-live; the `redlock` mutex is
modelled by a `lockHeld` flag in the final execution state; JavaScript
runtime `TypeError`s raised by non-null assertions on `undefined` are
modelled with `Except JsErr`.  JavaScript truthiness of guard expressions
(`if (x)`) is modelled explicitly: an object chain is truthy iff present,
a number is truthy iff nonzero, a string is truthy iff nonempty.
-/

namespace JobRateLimiter

/-- A JavaScript runtime `TypeError` (property access on `undefined`). -/
inductive JsErr where
  | typeError
deriving DecidableEq

deriving instance DecidableEq for Except


/-- Model of the TypeScript non-null assertion `x!` followed by a property
access: succeeds on a present value, raises `TypeError` on `undefined`. -/
def jsGet {α : Type} : Option α → Except JsErr α
  | some a => .ok a
  | none => .error .typeError

/-- JS truthiness of an optional string (`if (opts.kind)`):
present and nonempty. -/
def kindTruthy : Option String → Bool
  | some s => s != ""
  | none => false

/-- `{count, timespan}` entry of `maxJobsPerTimespan` / `maxItemsPerTimespan`. -/
structure WindowRule where
  count : Int
  timespan : Int
deriving DecidableEq

/-- `maxJobsPerTimespan` / `maxItemsPerTimespan` rule shape
(`global?`, `kinds?` as an object map). -/
structure TimespanRules where
  global : Option WindowRule := none
  kinds : Option (List (String × WindowRule)) := none
deriving DecidableEq

/-- `maxConcurrentJobs` rule shape (`global?: number`, `kinds?`). -/
structure ConcurrencyRules where
  global : Option Int := none
  kinds : Option (List (String × Int)) := none
deriving DecidableEq

/-- `Rules`: one scope's optional rules. -/
structure Rules where
  maxJobsPerTimespan : Option TimespanRules := none
  maxItemsPerTimespan : Option TimespanRules := none
  maxConcurrentJobs : Option ConcurrencyRules := none
deriving DecidableEq

/-- `LimiterRules`.  The source field `namespace` is a Lean keyword and is
embedded as `nsRules`. -/
structure LimiterRules where
  nsRules : Option Rules := none
  keyspace : Option Rules := none
deriving DecidableEq

/-- The limiter instance: its `id` and its rules. -/
structure Limiter where
  id : String
  rules : LimiterRules
deriving DecidableEq

/-- `LimitOptions` (`kind?`, `items?`). -/
structure LimitOptions where
  kind : Option String := none
  items : Option Int := none
deriving DecidableEq

/-- The template fragment `${"-" + kind || ""}`: since `"-" + kind` is the
nonempty string `"-undefined"` when `kind` is `undefined`, the `|| ""`
branch is dead and the result is always `"-"` followed by the string
rendering of `kind`. -/
def dashKind (kind : Option String) : String :=
  "-" ++ kind.getD "undefined"

/-- The template fragment `${kind || ""}` (used only by the
`maxItemsPerTimespan` keyspace generator): the kind itself when truthy,
otherwise the empty string. -/
def orEmptyKind (kind : Option String) : String :=
  kind.getD ""

/-- `keyGenerators.maxItemsPerTimespan.namespace`. -/
def itemsNsKey (id ns : String) (kind : Option String) : String :=
  "rl-mppt-" ++ (id ++ ("-" ++ (ns ++ dashKind kind)))

/-- `keyGenerators.maxItemsPerTimespan.keyspace` — note: no separator
between `key` and `kind` in the source template. -/
def itemsKeyKey (id ns key : String) (kind : Option String) : String :=
  "rl-mppt-" ++ (id ++ ("-" ++ (ns ++ ("-" ++ (key ++ orEmptyKind kind)))))

/-- `keyGenerators.maxJobsPerTimespan.namespace`. -/
def jobsNsKey (id ns : String) (kind : Option String) : String :=
  "rl-mrpt-" ++ (id ++ ("-" ++ (ns ++ dashKind kind)))

/-- `keyGenerators.maxJobsPerTimespan.keyspace`. -/
def jobsKeyKey (id ns key : String) (kind : Option String) : String :=
  "rl-mrpt-" ++ (id ++ ("-" ++ (ns ++ ("-" ++ (key ++ dashKind kind)))))

/-- `keyGenerators.maxConcurrentJobs.namespace`. -/
def concNsKey (id ns : String) (kind : Option String) : String :=
  "rl-mcr-" ++ (id ++ ("-" ++ (ns ++ dashKind kind)))

/-- `keyGenerators.maxConcurrentJobs.keyspace`. -/
def concKeyKey (id ns key : String) (kind : Option String) : String :=
  "rl-mcr-" ++ (id ++ ("-" ++ (ns ++ ("-" ++ (key ++ dashKind kind)))))

/-- `getAllKeys` — the key list the cross-process lock is acquired on.
The keyspace generators are invoked without the `kind` argument. -/
def getAllKeys (id ns key : String) (kind : Option String) : List String :=
  [itemsNsKey id ns kind,
   itemsKeyKey id ns key none,
   jobsNsKey id ns kind,
   jobsKeyKey id ns key none,
   concNsKey id ns kind,
   concKeyKey id ns key none]

/-- A stored Redis entry: integer counter value plus optional TTL (ms). -/
structure REntry where
  value : Int
  ttl : Option Int := none
deriving DecidableEq

/-- The Redis store: association list, first binding wins. -/
abbrev Store := List (String × REntry)

/-- `parseInt(await redis.get(rKey) || "0")`: stored value, or 0 when the
key is absent. -/
def readCount (s : Store) (k : String) : Int :=
  match List.lookup k s with
  | some e => e.value
  | none => 0

/-- `redis.pttl`: -2 when the key does not exist, -1 when it has no TTL,
otherwise the remaining TTL. -/
def pttl (s : Store) (k : String) : Int :=
  match List.lookup k s with
  | none => -2
  | some e =>
    match e.ttl with
    | none => -1
    | some t => t

/-- `getExpiresIn`. -/
def getExpiresIn (s : Store) (k : String) : Int :=
  let t := pttl s k
  if t = -1 then 0 else if t = -2 then 0 else t

/-- A staged Redis write (the closures pushed into `rActions`):
`set(k, v, "PX", ttl)`, `set(k, v, "KEEPTTL")`, or plain `set(k, v)`. -/
inductive RAction where
  | setPX (key : String) (value : Int) (ttlMs : Int)
  | setKeepTTL (key : String) (value : Int)
  | set (key : String) (value : Int)
deriving DecidableEq

/-- Execute one staged write against the store.  `SET ... PX` installs the
TTL, `SET ... KEEPTTL` keeps the existing TTL of the key (none if absent),
plain `SET` clears any TTL. -/
def applyAction (s : Store) : RAction → Store
  | .setPX k v t => (k, ⟨v, some t⟩) :: s
  | .setKeepTTL k v => (k, ⟨v, (List.lookup k s).bind REntry.ttl⟩) :: s
  | .set k v => (k, ⟨v, none⟩) :: s

inductive LimitType where
  | maxConcurrentJobs
  | maxJobsPerTimespan
  | maxItemsPerTimespan
deriving DecidableEq

/-- `"namespace" | "key"` (the source scope strings). -/
inductive LimitScope where
  | nsScope
  | keyScope
deriving DecidableEq

/-- `LimiterError` — the rejection record.  The source field `namespace`
is embedded as `ns`. -/
structure LimiterError where
  limiterId : String
  type : LimitType
  scope : LimitScope
  ns : String
  key : String
  global : Bool
  kind : Option String := none
  expiresIn : Option Int := none
deriving DecidableEq

/-- A check's outcome: an optional rejection plus the staged writes it
pushed into `rActions`. -/
abbrev CheckResult := Option LimiterError × List RAction

/-- `checkNamespaceMaxConcurrentJobsGlobal` (part_000:414).  Guard is JS
truthiness of the configured number, so a threshold of 0 disables the
check.  The counter key is derived without a kind. -/
def checkNamespaceMaxConcurrentJobsGlobal (L : Limiter) (store : Store)
    (ns key : String) (kind : Option String) : Except JsErr CheckResult :=
  match (L.rules.nsRules.bind Rules.maxConcurrentJobs).bind ConcurrencyRules.global with
  | none => .ok (none, [])
  | some g =>
    if g = 0 then .ok (none, []) else
    let rKey := concNsKey L.id ns none
    let count := readCount store rKey
    if count ≥ g then
      .ok (some { limiterId := L.id, scope := .nsScope, key := key,
                  type := .maxConcurrentJobs, global := true, ns := ns,
                  kind := kind }, [])
    else
      .ok (none, [RAction.set rKey (count + 1)])

/-- `checkKeyMaxConcurrentJobsGlobal` (part_000:434). -/
def checkKeyMaxConcurrentJobsGlobal (L : Limiter) (store : Store)
    (ns key : String) (kind : Option String) : Except JsErr CheckResult :=
  match (L.rules.keyspace.bind Rules.maxConcurrentJobs).bind ConcurrencyRules.global with
  | none => .ok (none, [])
  | some g =>
    if g = 0 then .ok (none, []) else
    let rKey := concKeyKey L.id ns key none
    let count := readCount store rKey
    if count ≥ g then
      .ok (some { limiterId := L.id, scope := .keyScope, key := key,
                  ns := ns, type := .maxConcurrentJobs, global := true,
                  kind := kind }, [])
    else
      .ok (none, [RAction.set rKey (count + 1)])

/-- `checkNamespaceMaxConcurrentJobsPerKind` (part_000:454). -/
def checkNamespaceMaxConcurrentJobsPerKind (L : Limiter) (store : Store)
    (ns key : String) (kind : String) : Except JsErr CheckResult :=
  match ((L.rules.nsRules.bind Rules.maxConcurrentJobs).bind
      ConcurrencyRules.kinds).bind (List.lookup kind) with
  | none => .ok (none, [])
  | some g =>
    if g = 0 then .ok (none, []) else
    let rKey := concNsKey L.id ns (some kind)
    let count := readCount store rKey
    if count ≥ g then
      .ok (some { limiterId := L.id, scope := .nsScope, kind := some kind,
                  key := key, ns := ns, type := .maxConcurrentJobs,
                  global := false }, [])
    else
      .ok (none, [RAction.set rKey (count + 1)])

/-- `checkKeyMaxConcurrentJobsPerKind` (part_000:474).  The source guards
on and compares against `rules.namespace.maxConcurrentJobs.kinds[kind]`
(not the keyspace rule) and reports scope `"namespace"`, while reading
the keyspace counter key — transcribed as written. -/
def checkKeyMaxConcurrentJobsPerKind (L : Limiter) (store : Store)
    (ns key : String) (kind : String) : Except JsErr CheckResult :=
  match ((L.rules.nsRules.bind Rules.maxConcurrentJobs).bind
      ConcurrencyRules.kinds).bind (List.lookup kind) with
  | none => .ok (none, [])
  | some g =>
    if g = 0 then .ok (none, []) else
    let rKey := concKeyKey L.id ns key (some kind)
    let count := readCount store rKey
    if count ≥ g then
      .ok (some { limiterId := L.id, scope := .nsScope, kind := some kind,
                  key := key, ns := ns, type := .maxConcurrentJobs,
                  global := false }, [])
    else
      .ok (none, [RAction.set rKey (count + 1)])

/-- `checkNamespaceMaxJobsPerTimespanGlobal` (part_000:203).  The source
derives the counter key with `namespace(ns, ns)` — the namespace is also
passed in the kind position — transcribed as written. -/
def checkNamespaceMaxJobsPerTimespanGlobal (L : Limiter) (store : Store)
    (ns key : String) (kind : Option String) : Except JsErr CheckResult :=
  match (L.rules.nsRules.bind Rules.maxJobsPerTimespan).bind TimespanRules.global with
  | none => .ok (none, [])
  | some g =>
    let rKey := jobsNsKey L.id ns (some ns)
    let count := readCount store rKey
    if count ≥ g.count then
      .ok (some { limiterId := L.id, scope := .nsScope,
                  type := .maxJobsPerTimespan, key := key, global := true,
                  ns := ns, expiresIn := some (getExpiresIn store rKey),
                  kind := kind }, [])
    else
      .ok (none, [if count = 0 then RAction.setPX rKey (count + 1) g.timespan
                  else RAction.setKeepTTL rKey (count + 1)])

/-- `checkKeyMaxJobsPerTimespanGlobal` (part_000:229). -/
def checkKeyMaxJobsPerTimespanGlobal (L : Limiter) (store : Store)
    (ns key : String) (kind : Option String) : Except JsErr CheckResult :=
  match (L.rules.keyspace.bind Rules.maxJobsPerTimespan).bind TimespanRules.global with
  | none => .ok (none, [])
  | some g =>
    let rKey := jobsKeyKey L.id ns key none
    let count := readCount store rKey
    if count ≥ g.count then
      .ok (some { limiterId := L.id, scope := .keyScope, key := key,
                  ns := ns, global := true, type := .maxJobsPerTimespan,
                  expiresIn := some (getExpiresIn store rKey),
                  kind := kind }, [])
    else
      .ok (none, [if count = 0 then RAction.setPX rKey (count + 1) g.timespan
                  else RAction.setKeepTTL rKey (count + 1)])

/-- `checkNamespaceMaxJobsPerTimespanPerKind` (part_000:255).  The TTL of
the staged write is taken from the `global` sub-rule (`global!.timespan`),
not from the kind's own rule, and that non-null assertion raises a
`TypeError` when no global sub-rule is configured — transcribed as
written. -/
def checkNamespaceMaxJobsPerTimespanPerKind (L : Limiter) (store : Store)
    (ns key : String) (kind : String) : Except JsErr CheckResult :=
  match L.rules.nsRules.bind Rules.maxJobsPerTimespan with
  | none => .ok (none, [])
  | some ts =>
    match ts.kinds.bind (List.lookup kind) with
    | none => .ok (none, [])
    | some kr =>
      let rKey := jobsNsKey L.id ns (some kind)
      let count := readCount store rKey
      if count ≥ kr.count then
        .ok (some { limiterId := L.id, scope := .nsScope, kind := some kind,
                    key := key, ns := ns, global := false,
                    type := .maxJobsPerTimespan,
                    expiresIn := some (getExpiresIn store rKey) }, [])
      else
        match jsGet ts.global with
        | .error e => .error e
        | .ok g =>
          .ok (none, [if count = 0 then RAction.setPX rKey (count + 1) g.timespan
                      else RAction.setKeepTTL rKey (count + 1)])

/-- `checkKeyMaxJobsPerTimespanPerKind` (part_000:284).  The source
derives the counter key with `keyspace(ns, kind)` (the kind in the key
position, no kind argument), compares against the *namespace* kind rule
(`rules!.namespace!.maxJobsPerTimespan!.kinds![kind]!.count`, raising a
`TypeError` when that chain is absent), reports scope `"namespace"`, and
takes the TTL from the keyspace `global` sub-rule — transcribed as
written. -/
def checkKeyMaxJobsPerTimespanPerKind (L : Limiter) (store : Store)
    (ns key : String) (kind : String) : Except JsErr CheckResult :=
  match L.rules.keyspace.bind Rules.maxJobsPerTimespan with
  | none => .ok (none, [])
  | some ts =>
    match ts.kinds.bind (List.lookup kind) with
    | none => .ok (none, [])
    | some _ =>
      let rKey := jobsKeyKey L.id ns kind none
      let count := readCount store rKey
      match jsGet L.rules.nsRules with
      | .error e => .error e
      | .ok nsR =>
        match jsGet nsR.maxJobsPerTimespan with
        | .error e => .error e
        | .ok nts =>
          match jsGet nts.kinds with
          | .error e => .error e
          | .ok nkinds =>
            match jsGet (List.lookup kind nkinds) with
            | .error e => .error e
            | .ok nkr =>
              if count ≥ nkr.count then
                .ok (some { limiterId := L.id, scope := .nsScope,
                            type := .maxJobsPerTimespan, ns := ns,
                            global := false,
                            expiresIn := some (getExpiresIn store rKey),
                            kind := some kind, key := key }, [])
              else
                match jsGet ts.global with
                | .error e => .error e
                | .ok g =>
                  .ok (none,
                    [if count = 0 then RAction.setPX rKey (count + 1) g.timespan
                     else RAction.setKeepTTL rKey (count + 1)])

/-- `checkNamespaceMaxItemsPerTimespanGlobal` (part_000:310).  The counter
key is derived without a kind; the staged write adds `itemsCount`. -/
def checkNamespaceMaxItemsPerTimespanGlobal (L : Limiter) (store : Store)
    (ns key : String) (itemsCount : Int) (kind : Option String) :
    Except JsErr CheckResult :=
  match (L.rules.nsRules.bind Rules.maxItemsPerTimespan).bind TimespanRules.global with
  | none => .ok (none, [])
  | some g =>
    let rKey := itemsNsKey L.id ns none
    let count := readCount store rKey
    if count ≥ g.count then
      .ok (some { limiterId := L.id, scope := .nsScope,
                  type := .maxItemsPerTimespan,
                  expiresIn := some (getExpiresIn store rKey), ns := ns,
                  global := true, key := key, kind := kind }, [])
    else
      .ok (none, [if count = 0 then RAction.setPX rKey (count + itemsCount) g.timespan
                  else RAction.setKeepTTL rKey (count + itemsCount)])

/-- `checkKeyMaxItemsPerTimespanGlobal` (part_000:388). -/
def checkKeyMaxItemsPerTimespanGlobal (L : Limiter) (store : Store)
    (ns key : String) (itemsCount : Int) (kind : Option String) :
    Except JsErr CheckResult :=
  match (L.rules.keyspace.bind Rules.maxItemsPerTimespan).bind TimespanRules.global with
  | none => .ok (none, [])
  | some g =>
    let rKey := itemsKeyKey L.id ns key none
    let count := readCount store rKey
    if count ≥ g.count then
      .ok (some { limiterId := L.id, scope := .keyScope,
                  type := .maxItemsPerTimespan, key := key,
                  expiresIn := some (getExpiresIn store rKey),
                  global := true, ns := ns, kind := kind }, [])
    else
      .ok (none, [if count = 0 then RAction.setPX rKey (count + itemsCount) g.timespan
                  else RAction.setKeepTTL rKey (count + itemsCount)])

/-- `checkNamespaceMaxItemsPerTimespanPerKind` (part_000:336).  Uses the
kind rule's own timespan. -/
def checkNamespaceMaxItemsPerTimespanPerKind (L : Limiter) (store : Store)
    (ns key : String) (kind : String) (itemsCount : Int) :
    Except JsErr CheckResult :=
  match ((L.rules.nsRules.bind Rules.maxItemsPerTimespan).bind
      TimespanRules.kinds).bind (List.lookup kind) with
  | none => .ok (none, [])
  | some kr =>
    let rKey := itemsNsKey L.id ns (some kind)
    let count := readCount store rKey
    if count ≥ kr.count then
      .ok (some { limiterId := L.id, scope := .nsScope,
                  type := .maxItemsPerTimespan, kind := some kind,
                  key := key, expiresIn := some (getExpiresIn store rKey),
                  ns := ns, global := false }, [])
    else
      .ok (none, [if count = 0 then RAction.setPX rKey (count + itemsCount) kr.timespan
                  else RAction.setKeepTTL rKey (count + itemsCount)])

/-- `checkKeyMaxItemsPerTimespanPerKind` (part_000:362). -/
def checkKeyMaxItemsPerTimespanPerKind (L : Limiter) (store : Store)
    (ns key : String) (kind : String) (itemsCount : Int) :
    Except JsErr CheckResult :=
  match ((L.rules.keyspace.bind Rules.maxItemsPerTimespan).bind
      TimespanRules.kinds).bind (List.lookup kind) with
  | none => .ok (none, [])
  | some kr =>
    let rKey := itemsKeyKey L.id ns key (some kind)
    let count := readCount store rKey
    if count ≥ kr.count then
      .ok (some { limiterId := L.id, scope := .keyScope, kind := some kind,
                  type := .maxItemsPerTimespan, key := key,
                  expiresIn := some (getExpiresIn store rKey),
                  ns := ns, global := false }, [])
    else
      .ok (none, [if count = 0 then RAction.setPX rKey (count + itemsCount) kr.timespan
                  else RAction.setKeepTTL rKey (count + itemsCount)])

/-- `unregisterNamespaceJobGlobal` (part_000:510): clamp-decrement of the
namespace-global concurrency counter (plain `set`). -/
def unregisterNamespaceJobGlobal (L : Limiter) (store : Store) (ns : String) : Store :=
  match (L.rules.nsRules.bind Rules.maxConcurrentJobs).bind ConcurrencyRules.global with
  | none => store
  | some g =>
    if g = 0 then store else
    let rKey := concNsKey L.id ns none
    let count := readCount store rKey
    applyAction store (.set rKey (if count = 0 then 0 else count - 1))

/-- `unregisterKeyJobGlobal` (part_000:518). -/
def unregisterKeyJobGlobal (L : Limiter) (store : Store) (ns key : String) : Store :=
  match (L.rules.keyspace.bind Rules.maxConcurrentJobs).bind ConcurrencyRules.global with
  | none => store
  | some g =>
    if g = 0 then store else
    let rKey := concKeyKey L.id ns key none
    let count := readCount store rKey
    applyAction store (.set rKey (if count = 0 then 0 else count - 1))

/-- `unregisterNamespaceKind` (part_000:494). -/
def unregisterNamespaceKind (L : Limiter) (store : Store) (ns kind : String) : Store :=
  match ((L.rules.nsRules.bind Rules.maxConcurrentJobs).bind
      ConcurrencyRules.kinds).bind (List.lookup kind) with
  | none => store
  | some g =>
    if g = 0 then store else
    let rKey := concNsKey L.id ns (some kind)
    let count := readCount store rKey
    applyAction store (.set rKey (if count = 0 then 0 else count - 1))

/-- `unregisterKeyKind` (part_000:502). -/
def unregisterKeyKind (L : Limiter) (store : Store) (ns key kind : String) : Store :=
  match ((L.rules.keyspace.bind Rules.maxConcurrentJobs).bind
      ConcurrencyRules.kinds).bind (List.lookup kind) with
  | none => store
  | some g =>
    if g = 0 then store else
    let rKey := concKeyKey L.id ns key (some kind)
    let count := readCount store rKey
    applyAction store (.set rKey (if count = 0 then 0 else count - 1))

/-- `resetConcurrencyLimits` (part_000:193). -/
def resetConcurrencyLimits (L : Limiter) (store : Store) (ns key : String)
    (kind : Option String) : Store :=
  let s1 := unregisterNamespaceJobGlobal L store ns
  let s2 := unregisterKeyJobGlobal L s1 ns key
  if kindTruthy kind then
    let k := kind.getD ""
    unregisterKeyKind L (unregisterNamespaceKind L s2 ns k) ns key k
  else s2

/-- Identifier of one of the twelve check-function call sites in `exec`. -/
inductive CheckId where
  | nsConcG | nsJobsG | keyConcG | keyJobsG
  | nsItemsG | keyItemsG | nsItemsK | keyItemsK
  | keyJobsK | keyConcK | nsConcK | nsJobsK
deriving DecidableEq

/-- The limit type a check enforces. -/
def checkType : CheckId → LimitType
  | .nsConcG | .keyConcG | .nsConcK | .keyConcK => .maxConcurrentJobs
  | .nsJobsG | .keyJobsG | .nsJobsK | .keyJobsK => .maxJobsPerTimespan
  | .nsItemsG | .keyItemsG | .nsItemsK | .keyItemsK => .maxItemsPerTimespan

/-- The Redis counter key each check reads (its `rKey` line), as a
function of the call parameters. -/
def readKeyOf (c : CheckId) (id ns key : String) (kind : Option String) : String :=
  match c with
  | .nsConcG => concNsKey id ns none
  | .nsJobsG => jobsNsKey id ns (some ns)
  | .keyConcG => concKeyKey id ns key none
  | .keyJobsG => jobsKeyKey id ns key none
  | .nsItemsG => itemsNsKey id ns none
  | .keyItemsG => itemsKeyKey id ns key none
  | .nsItemsK => itemsNsKey id ns (some (kind.getD ""))
  | .keyItemsK => itemsKeyKey id ns key (some (kind.getD ""))
  | .keyJobsK => jobsKeyKey id ns (kind.getD "") none
  | .keyConcK => concKeyKey id ns key (some (kind.getD ""))
  | .nsConcK => concNsKey id ns (some (kind.getD ""))
  | .nsJobsK => jobsNsKey id ns (some (kind.getD ""))

/-- Dispatch one check exactly as `exec` invokes it.  Per-kind checks are
only dispatched under the `opts.kind` truthiness guard, so `kind.getD ""`
is the narrowed string; items checks only under `opts.items` presence. -/
def runCheck (L : Limiter) (store : Store) (ns key : String)
    (kind : Option String) (items : Option Int) :
    CheckId → Except JsErr CheckResult
  | .nsConcG => checkNamespaceMaxConcurrentJobsGlobal L store ns key kind
  | .nsJobsG => checkNamespaceMaxJobsPerTimespanGlobal L store ns key kind
  | .keyConcG => checkKeyMaxConcurrentJobsGlobal L store ns key kind
  | .keyJobsG => checkKeyMaxJobsPerTimespanGlobal L store ns key kind
  | .nsItemsG => checkNamespaceMaxItemsPerTimespanGlobal L store ns key (items.getD 0) kind
  | .keyItemsG => checkKeyMaxItemsPerTimespanGlobal L store ns key (items.getD 0) kind
  | .nsItemsK => checkNamespaceMaxItemsPerTimespanPerKind L store ns key (kind.getD "") (items.getD 0)
  | .keyItemsK => checkKeyMaxItemsPerTimespanPerKind L store ns key (kind.getD "") (items.getD 0)
  | .keyJobsK => checkKeyMaxJobsPerTimespanPerKind L store ns key (kind.getD "")
  | .keyConcK => checkKeyMaxConcurrentJobsPerKind L store ns key (kind.getD "")
  | .nsConcK => checkNamespaceMaxConcurrentJobsPerKind L store ns key (kind.getD "")
  | .nsJobsK => checkNamespaceMaxJobsPerTimespanPerKind L store ns key (kind.getD "")

/-- The sequence of check calls in `exec` (part_000:131-174), in source
order: the four global jobs/concurrency checks; then, when `opts.items`
is present (`!== null && !== undefined`), the items checks, with the
kind-specific items checks under the `opts.kind` truthiness guard; then,
when `opts.kind` is truthy, the four kind-specific jobs/concurrency
checks. -/
def checkOrder (items : Option Int) (kind : Option String) : List CheckId :=
  [.nsConcG, .nsJobsG, .keyConcG, .keyJobsG]
    ++ (if items.isSome then
          [.nsItemsG, .keyItemsG]
            ++ (if kindTruthy kind then [.nsItemsK, .keyItemsK] else [])
        else [])
    ++ (if kindTruthy kind then [.keyJobsK, .keyConcK, .nsConcK, .nsJobsK] else [])

/-- Accumulated outcome of the check sequence: the first rejection (if
any), the staged writes pushed so far, and the trace of checks that were
invoked. -/
structure ChecksOut where
  rejection : Option LimiterError
  actions : List RAction
  trace : List CheckId
deriving DecidableEq

/-- Run the checks in order, short-circuiting on the first rejection
(`if (err) return [null, err]`) and propagating a `TypeError`. -/
def runChecksGo (L : Limiter) (store : Store) (ns key : String)
    (kind : Option String) (items : Option Int) :
    List CheckId → List RAction → List CheckId → Except JsErr ChecksOut
  | [], acts, tr => .ok ⟨none, acts, tr⟩
  | c :: rest, acts, tr =>
    match runCheck L store ns key kind items c with
    | .error e => .error e
    | .ok (some err, newActs) => .ok ⟨some err, acts ++ newActs, tr ++ [c]⟩
    | .ok (none, newActs) =>
      runChecksGo L store ns key kind items rest (acts ++ newActs) (tr ++ [c])

/-- The check phase of `exec`: all reads observe the initial store, since
the staged writes only run after every check has passed. -/
def runChecks (L : Limiter) (store : Store) (ns key : String)
    (opts : LimitOptions) : Except JsErr ChecksOut :=
  runChecksGo L store ns key opts.kind opts.items
    (checkOrder opts.items opts.kind) [] []

/-- How a call to `exec` ends: a returned `[result, rejection]` pair, an
exception propagated from the job body, or an internal `TypeError`. -/
inductive ExecOutcome (τ ε : Type) where
  | returned (res : Option τ) (rejection : Option LimiterError)
  | threw (e : ε)
  | crashed (e : JsErr)
deriving DecidableEq

/-- Final state of one `exec` call: its outcome, the resulting store, and
whether the call ended while still holding the cross-process lock
(`lock.release()` never reached), plus how many times the job body was
invoked. -/
structure ExecFinal (τ ε : Type) where
  outcome : ExecOutcome τ ε
  store : Store
  lockHeld : Bool
  bodyCalls : Nat
deriving DecidableEq

/-- `exec` (part_000:121-191).  The lock is acquired on
`getAllKeys namespace key opts.kind`; every `return [null, err]` in the
check phase returns without `lock.release()`; on admission the staged
writes are applied, the lock is released, the job body runs, and only on
a *successful* body does the re-lock / `resetConcurrencyLimits` /
release sequence run — a thrown body error propagates before it. -/
def exec {τ ε : Type} (L : Limiter) (store0 : Store) (ns key : String)
    (body : Except ε τ) (opts : LimitOptions) : ExecFinal τ ε :=
  match runChecks L store0 ns key opts with
  | .error e => ⟨.crashed e, store0, true, 0⟩
  | .ok out =>
    match out.rejection with
    | some err => ⟨.returned none (some err), store0, true, 0⟩
    | none =>
      let store1 := out.actions.foldl applyAction store0
      match body with
      | .error e => ⟨.threw e, store1, false, 1⟩
      | .ok v =>
        ⟨.returned (some v) none,
         resetConcurrencyLimits L store1 ns key opts.kind, false, 1⟩

/-- A limit-identity tuple, as in the spec's Key Deriver contract. -/
structure LimitIdentity where
  limiterId : String
  scope : LimitScope
  limitType : LimitType
  ns : String
  key : String
  kind : Option String
deriving DecidableEq

/-- The key deriver as a single function of a limit identity, dispatching
to the `keyGenerators` entry selected by scope and limit type. -/
def deriveKey (t : LimitIdentity) : String :=
  match t.limitType, t.scope with
  | .maxItemsPerTimespan, .nsScope => itemsNsKey t.limiterId t.ns t.kind
  | .maxItemsPerTimespan, .keyScope => itemsKeyKey t.limiterId t.ns t.key t.kind
  | .maxJobsPerTimespan, .nsScope => jobsNsKey t.limiterId t.ns t.kind
  | .maxJobsPerTimespan, .keyScope => jobsKeyKey t.limiterId t.ns t.key t.kind
  | .maxConcurrentJobs, .nsScope => concNsKey t.limiterId t.ns t.kind
  | .maxConcurrentJobs, .keyScope => concKeyKey t.limiterId t.ns t.key t.kind

/-- Modelled from the spec: the evaluation order claimed by the spec
(concurrency namespace-global, keyspace-global, then if kind the two
kind-specific concurrency checks; then jobs-per-timespan in the same
ordering; then, if an item count was supplied, items-per-timespan
namespace-global, keyspace-global, namespace-kind, keyspace-kind) — for
comparison with the order the code actually uses. -/
def specClaimedOrder (items : Option Int) (kind : Option String) : List CheckId :=
  [.nsConcG, .keyConcG]
    ++ (if kindTruthy kind then [.nsConcK, .keyConcK] else [])
    ++ [.nsJobsG, .keyJobsG]
    ++ (if kindTruthy kind then [.nsJobsK, .keyJobsK] else [])
    ++ (if items.isSome then [.nsItemsG, .keyItemsG, .nsItemsK, .keyItemsK] else [])

/-- The character at index 4 of a derived key, which is determined by the
limit type (`rl-mppt-` / `rl-mrpt-` / `rl-mcr-`). -/
def keyTypeChar (s : String) : Char :=
  s.data.getD 4 ' '

/-- The index-4 character of each limit type's key prefix. -/
def typeChar : LimitType → Char
  | .maxItemsPerTimespan => 'p'
  | .maxJobsPerTimespan => 'r'
  | .maxConcurrentJobs => 'c'

/-! Concrete configurations used by individual claim theorems. -/

/-- Limiter with only `namespace.maxConcurrentJobs.global = 2`. -/
def limiterConcNs2 : Limiter :=
  ⟨"i", { nsRules := some { maxConcurrentJobs := some { global := some 2 } } }⟩

/-- Limiter with only `namespace.maxConcurrentJobs.global = 1`. -/
def limiterConcNs1 : Limiter :=
  ⟨"i", { nsRules := some { maxConcurrentJobs := some { global := some 1 } } }⟩

/-- A scope's rules with every sub-rule configured (thresholds 100,
timespan 1000, one kind `"a"`). -/
def rulesFull : Rules :=
  { maxJobsPerTimespan := some { global := some ⟨100, 1000⟩, kinds := some [("a", ⟨100, 1000⟩)] },
    maxItemsPerTimespan := some { global := some ⟨100, 1000⟩, kinds := some [("a", ⟨100, 1000⟩)] },
    maxConcurrentJobs := some { global := some 100, kinds := some [("a", 100)] } }

/-- Limiter with every rule configured in both scopes. -/
def limiterFull : Limiter := ⟨"i", { nsRules := some rulesFull, keyspace := some rulesFull }⟩

/-- Limiter with only `keyspace.maxConcurrentJobs.kinds = { a: 1 }`. -/
def limiterKeyKindConc : Limiter :=
  ⟨"i", { keyspace := some { maxConcurrentJobs := some { kinds := some [("a", 1)] } } }⟩

/-- `maxJobsPerTimespan` rules with a global sub-rule (count 10, timespan
5000) and a kind `"a"` sub-rule (count 2, timespan 60000). -/
def jobsKindTtlRules : TimespanRules :=
  { global := some ⟨10, 5000⟩, kinds := some [("a", ⟨2, 60000⟩)] }

/-- Limiter with `namespace.maxJobsPerTimespan` configured both globally
(count 10, timespan 5000) and for kind `"a"` (count 2, timespan 60000). -/
def limiterJobsKindTtl : Limiter :=
  ⟨"i", { nsRules := some { maxJobsPerTimespan := some jobsKindTtlRules } }⟩

/-- Limiter with only `namespace.maxJobsPerTimespan.global` (count 5,
timespan 1000). -/
def limiterJobsNsG : Limiter :=
  ⟨"i", { nsRules := some { maxJobsPerTimespan := some { global := some ⟨5, 1000⟩ } } }⟩

/-- C1: with `namespace.maxConcurrentJobs.global = 2` and an empty store,
an admitted call whose job body raises propagates the error with the
namespace-global concurrency counter left at 1 (it was 0 before the
call): the release step never runs on the error path, so the counter does
not return to its pre-call value. -/
theorem c1_body_error_leaks_concurrency :
    exec limiterConcNs2 [] "n" "k" (Except.error "boom" : Except String String) {} =
      ⟨.threw "boom", [("rl-mcr-i-n-undefined", ⟨1, none⟩)], false, 1⟩ ∧
    readCount [] "rl-mcr-i-n-undefined" = 0 ∧
    readCount [("rl-mcr-i-n-undefined", ⟨1, none⟩)] "rl-mcr-i-n-undefined" = 1 := by
  decide

/-- C2 counterexample: the two keyspace `maxItemsPerTimespan` identities
`(key "ab", no kind)` and `(key "a", kind "b")` differ in key and kind
but derive the same counter key string, refuting injectivity of the key
deriver. -/
theorem c2_deriveKey_not_injective :
    deriveKey ⟨"i", .keyScope, .maxItemsPerTimespan, "n", "ab", none⟩ =
      deriveKey ⟨"i", .keyScope, .maxItemsPerTimespan, "n", "a", some "b"⟩ ∧
    (⟨"i", .keyScope, .maxItemsPerTimespan, "n", "ab", none⟩ : LimitIdentity) ≠
      ⟨"i", .keyScope, .maxItemsPerTimespan, "n", "a", some "b"⟩ := by
  decide

/-- C3: with `namespace.maxConcurrentJobs.global = 1` and the counter at
1, the call is rejected with no counter mutated, but the final state
still holds the cross-process lock: the rejection path returns before
`lock.release()`. -/
theorem c3_rejection_keeps_lock :
    exec limiterConcNs1 [("rl-mcr-i-n-undefined", ⟨1, none⟩)] "n" "k"
        (Except.ok "v" : Except String String) {} =
      ⟨.returned none (some ⟨"i", .maxConcurrentJobs, .nsScope, "n", "k", true, none, none⟩),
       [("rl-mcr-i-n-undefined", ⟨1, none⟩)], true, 0⟩ := by
  decide

/-- C4 counterexample: with every rule configured in both scopes, a call
with a kind and an item count evaluates the twelve checks in the source
order (`checkOrder`), which differs from the order the claim states
(`specClaimedOrder`): the code interleaves concurrency and jobs checks
by scope and runs the items checks before the kind-specific jobs and
concurrency checks. -/
theorem c4_order_differs :
    (runChecks limiterFull [] "n" "k" ⟨some "a", some 1⟩).map ChecksOut.trace =
      .ok (checkOrder (some 1) (some "a")) ∧
    checkOrder (some 1) (some "a") ≠ specClaimedOrder (some 1) (some "a") := by
  decide

/-- C5: with `keyspace.maxConcurrentJobs.kinds = { a: 1 }` configured (and
no namespace rules) and the keyspace kind counter already at its
threshold 1, the keyspace kind-specific concurrency check admits the
call without even reading a rule: it is gated on (and compares against)
the namespace kind rule instead of the keyspace one. -/
theorem c5_keyspace_kind_check_uses_namespace_rule :
    checkKeyMaxConcurrentJobsPerKind limiterKeyKindConc
        [("rl-mcr-i-n-k-a", ⟨1, none⟩)] "n" "k" "a" = .ok (none, []) ∧
    ((limiterKeyKindConc.rules.keyspace.bind Rules.maxConcurrentJobs).bind
        ConcurrencyRules.kinds).bind (List.lookup "a") = some 1 ∧
    readCount [("rl-mcr-i-n-k-a", ⟨1, none⟩)] (concKeyKey "i" "n" "k" (some "a")) = 1 := by
  decide

/-- C6: for the namespace kind-specific jobs-per-timespan rule of kind
`"a"` (count 2, timespan 60000), the staged first-increment write created
on an empty counter carries TTL 5000 — the timespan of the *global*
sub-rule — instead of the kind rule's own 60000. -/
theorem c6_kind_ttl_from_global_rule :
    checkNamespaceMaxJobsPerTimespanPerKind limiterJobsKindTtl [] "n" "k" "a" =
      .ok (none, [RAction.setPX (jobsNsKey "i" "n" (some "a")) 1 5000]) ∧
    (((limiterJobsKindTtl.rules.nsRules.bind Rules.maxJobsPerTimespan).bind
        TimespanRules.kinds).bind (List.lookup "a")).map WindowRule.timespan =
      some 60000 := by
  decide

/-- C7 counterexample: the namespace-global jobs-per-timespan check of a
call with kind `"a"` stages a write to the counter key
`"rl-mrpt-i-n-n"` (the namespace is passed in the kind position), and
that key is not in the lock key set `getAllKeys` for the call, so the
lock set is not a superset of the keys the call touches. -/
theorem c7_lock_not_superset :
    runCheck limiterJobsNsG [] "n" "k" (some "a") none .nsJobsG =
      .ok (none, [RAction.setPX "rl-mrpt-i-n-n" 1 1000]) ∧
    "rl-mrpt-i-n-n" ∉ getAllKeys "i" "n" "k" (some "a") := by
  decide

lemma keyTypeChar_append (p rest : String) (hp : 4 < p.data.length) :
    keyTypeChar (p ++ rest) = p.data.getD 4 ' ' := by
  unfold keyTypeChar
  rw [String.data_append]
  exact List.getD_append _ _ _ _ hp

lemma deriveKey_char4 (t : LimitIdentity) :
    keyTypeChar (deriveKey t) = typeChar t.limitType := by
  rcases t with ⟨id, scope, ty, ns, key, kind⟩
  cases ty <;> cases scope <;>
    simp only [deriveKey, itemsNsKey, itemsKeyKey, jobsNsKey, jobsKeyKey,
      concNsKey, concKeyKey, typeChar] <;>
    rw [keyTypeChar_append _ _ (by decide)] <;> rfl

/-- C2 (amended): the key deriver is injective *across limit types* — two
identity tuples with different limit types always derive distinct key
strings, because each limit type contributes a distinct prefix.  (Within
a limit type the deriver is not injective; see the counterexample.) -/
theorem c2_deriveKey_type_injective (t1 t2 : LimitIdentity)
    (h : t1.limitType ≠ t2.limitType) : deriveKey t1 ≠ deriveKey t2 := by
  intro heq
  apply h
  have hc := congrArg keyTypeChar heq
  rw [deriveKey_char4, deriveKey_char4] at hc
  revert hc
  cases t1.limitType <;> cases t2.limitType <;> intro hc <;>
    first
      | rfl
      | exact absurd hc (by decide)

/-- Witness for `c2_deriveKey_type_injective` at a concrete pair of
identities differing only in limit type. -/
theorem c2_deriveKey_type_injective_witness :
    (⟨"i", .nsScope, .maxJobsPerTimespan, "n", "k", none⟩ : LimitIdentity).limitType ≠
      (⟨"i", .nsScope, .maxConcurrentJobs, "n", "k", none⟩ : LimitIdentity).limitType ∧
    deriveKey ⟨"i", .nsScope, .maxJobsPerTimespan, "n", "k", none⟩ ≠
      deriveKey ⟨"i", .nsScope, .maxConcurrentJobs, "n", "k", none⟩ :=
  ⟨by decide, c2_deriveKey_type_injective _ _ (by decide)⟩

lemma runChecksGo_trace (L : Limiter) (store : Store) (ns key : String)
    (kind : Option String) (items : Option Int) :
    ∀ (l : List CheckId) (acts : List RAction) (tr : List CheckId) (out : ChecksOut),
      runChecksGo L store ns key kind items l acts tr = .ok out →
      (∃ n, out.trace = tr ++ l.take n) ∧
      (out.rejection = none → out.trace = tr ++ l) := by
  intro l
  induction l with
  | nil =>
    intro acts tr out h
    simp only [runChecksGo] at h
    cases h
    exact ⟨⟨0, by simp⟩, fun _ => by simp⟩
  | cons c rest ih =>
    intro acts tr out h
    simp only [runChecksGo] at h
    cases hc : runCheck L store ns key kind items c with
    | error e => rw [hc] at h; cases h
    | ok res =>
      obtain ⟨optErr, newActs⟩ := res
      cases optErr with
      | some err =>
        rw [hc] at h
        cases h
        refine ⟨⟨1, by simp⟩, fun hr => by simp at hr⟩
      | none =>
        rw [hc] at h
        have hrec := ih (acts ++ newActs) (tr ++ [c]) out h
        constructor
        · obtain ⟨n, hn⟩ := hrec.1
          exact ⟨n + 1, by rw [hn]; simp⟩
        · intro hr
          have := hrec.2 hr
          rw [this]; simp

/-- C4 (amended): the checks run in the source's fixed order
(`checkOrder`: namespace-concurrency-global, namespace-jobs-global,
keyspace-concurrency-global, keyspace-jobs-global; then, when an item
count is supplied, the items checks — global pair first, then, when a
kind is supplied, the kind pair; then, when a kind is supplied,
keyspace-jobs-kind, keyspace-concurrency-kind, namespace-concurrency-kind,
namespace-jobs-kind).  The trace of a non-crashing call is always a
prefix of that order — the first rejection short-circuits the rest — and
an admitted call runs the whole order. -/
theorem c4_trace_is_source_order (L : Limiter) (store : Store) (ns key : String)
    (opts : LimitOptions) (out : ChecksOut)
    (h : runChecks L store ns key opts = .ok out) :
    (∃ n, out.trace = (checkOrder opts.items opts.kind).take n) ∧
    (out.rejection = none → out.trace = checkOrder opts.items opts.kind) := by
  have := runChecksGo_trace L store ns key opts.kind opts.items
    (checkOrder opts.items opts.kind) [] [] out h
  simpa using this

/-- Witness for `c4_trace_is_source_order`: with no rules configured, a
plain call's trace is exactly the four global checks of `checkOrder`. -/
theorem c4_trace_is_source_order_witness :
    ([CheckId.nsConcG, CheckId.nsJobsG, CheckId.keyConcG, CheckId.keyJobsG] : List CheckId) =
      checkOrder none none := by
  have h := (c4_trace_is_source_order ⟨"i", {}⟩ [] "n" "k" {}
    ⟨none, [], [CheckId.nsConcG, CheckId.nsJobsG, CheckId.keyConcG, CheckId.keyJobsG]⟩
    (by decide)).2 (by decide)
  exact h

/-- C7 (amended): the lock key set `getAllKeys` does cover the counter
keys read and written by the keyspace-global checks of all three limit
types, by the namespace kind-specific checks (for the call's own kind),
and — when no kind is supplied — by the namespace-global concurrency and
items checks; it is not a superset of everything a call touches (see the
counterexample). -/
theorem c7_lock_covers_these_checks (id ns key : String) (kind : Option String) (k : String) :
    readKeyOf .keyConcG id ns key kind ∈ getAllKeys id ns key kind ∧
    readKeyOf .keyJobsG id ns key kind ∈ getAllKeys id ns key kind ∧
    readKeyOf .keyItemsG id ns key kind ∈ getAllKeys id ns key kind ∧
    readKeyOf .nsConcK id ns key (some k) ∈ getAllKeys id ns key (some k) ∧
    readKeyOf .nsJobsK id ns key (some k) ∈ getAllKeys id ns key (some k) ∧
    readKeyOf .nsItemsK id ns key (some k) ∈ getAllKeys id ns key (some k) ∧
    readKeyOf .nsConcG id ns key none ∈ getAllKeys id ns key none ∧
    readKeyOf .nsItemsG id ns key none ∈ getAllKeys id ns key none := by
  simp [readKeyOf, getAllKeys]

/-- C8: `exec` never returns a pair with both components populated; a
rejected call never invokes the job body; an admitted call invokes it
exactly once and passes its outcome through unchanged (a successful body
value is returned as the result, a body error propagates). -/
theorem c8_exec_pair_and_body {τ ε : Type} (L : Limiter) (store : Store)
    (ns key : String) (body : Except ε τ) (opts : LimitOptions) :
    (exec L store ns key body opts).bodyCalls ≤ 1 ∧
    (∀ r rej, (exec L store ns key body opts).outcome = .returned r rej →
      r = none ∨ rej = none) ∧
    (∀ e, (exec L store ns key body opts).outcome = .returned none (some e) →
      (exec L store ns key body opts).bodyCalls = 0) ∧
    (∀ v, (exec L store ns key body opts).outcome = .returned (some v) none →
      (exec L store ns key body opts).bodyCalls = 1 ∧ body = .ok v) ∧
    (∀ e, (exec L store ns key body opts).outcome = .threw e →
      (exec L store ns key body opts).bodyCalls = 1 ∧ body = .error e) := by
  unfold exec
  cases h : runChecks L store ns key opts with
  | error e => simp
  | ok out =>
    cases hr : out.rejection with
    | some err => simp [hr]
    | none =>
      cases body with
      | error e => simp [hr]
      | ok v => simp [hr]

/-- Witness for `c8_exec_pair_and_body`: a call with no rules configured
is admitted, runs the body once, and returns its value. -/
theorem c8_exec_pair_and_body_witness :
    (exec (⟨"i", {}⟩ : Limiter) [] "n" "k" (Except.ok "v" : Except String String) {}).bodyCalls = 1 ∧
    (Except.ok "v" : Except String String) = Except.ok "v" :=
  (c8_exec_pair_and_body ⟨"i", {}⟩ [] "n" "k" (Except.ok "v") {}).2.2.2.1 "v" (by decide)

/-- C9: a rejection built by a jobs- or items-per-timespan check carries
`expiresIn = getExpiresIn` of the counter key that check read, while a
concurrency rejection carries no `expiresIn`; and `getExpiresIn` reports
the stored remaining TTL, degrading to 0 (without crashing) when the
counter is absent or has no TTL. -/
theorem c9_rejection_expiresIn (L : Limiter) (store : Store) (ns key : String)
    (kind : Option String) (items : Option Int) :
    (∀ c e acts, runCheck L store ns key kind items c = .ok (some e, acts) →
      (checkType c = .maxConcurrentJobs → e.expiresIn = none) ∧
      (checkType c ≠ .maxConcurrentJobs →
        e.expiresIn = some (getExpiresIn store (readKeyOf c L.id ns key kind)))) ∧
    (∀ k, List.lookup k store = none → getExpiresIn store k = 0) ∧
    (∀ k en, List.lookup k store = some en → en.ttl = none → getExpiresIn store k = 0) ∧
    (∀ k en t, List.lookup k store = some en → en.ttl = some t → 0 ≤ t →
      getExpiresIn store k = t) := by
  refine ⟨?_, ?_, ?_, ?_⟩
  · intro c e acts h
    cases c <;>
      simp only [runCheck, checkNamespaceMaxConcurrentJobsGlobal,
        checkKeyMaxConcurrentJobsGlobal, checkNamespaceMaxConcurrentJobsPerKind,
        checkKeyMaxConcurrentJobsPerKind, checkNamespaceMaxJobsPerTimespanGlobal,
        checkKeyMaxJobsPerTimespanGlobal, checkNamespaceMaxJobsPerTimespanPerKind,
        checkKeyMaxJobsPerTimespanPerKind, checkNamespaceMaxItemsPerTimespanGlobal,
        checkKeyMaxItemsPerTimespanGlobal, checkNamespaceMaxItemsPerTimespanPerKind,
        checkKeyMaxItemsPerTimespanPerKind] at h <;>
      (repeat' split at h) <;>
      simp_all [checkType, readKeyOf] <;>
      (obtain ⟨he, -⟩ := h; rw [← he])
  · intro k hk
    simp [getExpiresIn, pttl, hk]
  · intro k en hk ht
    simp [getExpiresIn, pttl, hk, ht]
  · intro k en t hk ht h0
    simp only [getExpiresIn, pttl, hk, ht]
    omega

/-- Witness for `c9_rejection_expiresIn`: a namespace-global jobs
rejection whose counter has 500 ms left reports `expiresIn = 500`. -/
theorem c9_rejection_expiresIn_witness :
    (⟨"i", .maxJobsPerTimespan, .nsScope, "n", "k", true, none, some 500⟩ :
        LimiterError).expiresIn =
      some (getExpiresIn [("rl-mrpt-i-n-n", ⟨1, some 500⟩)]
        (readKeyOf .nsJobsG "i" "n" "k" none)) :=
  ((c9_rejection_expiresIn
      ⟨"i", { nsRules := some { maxJobsPerTimespan := some { global := some ⟨1, 1000⟩ } } }⟩
      [("rl-mrpt-i-n-n", ⟨1, some 500⟩)] "n" "k" none none).1 .nsJobsG
    ⟨"i", .maxJobsPerTimespan, .nsScope, "n", "k", true, none, some 500⟩ []
    (by decide)).2 (by decide)

lemma readCount_set_self (s : Store) (k : String) (v : Int) :
    readCount (applyAction s (.set k v)) k = v := by
  simp [applyAction, readCount, List.lookup]

/-- C10: each `unregister*` release step writes back `v - 1` when the
stored counter value `v` is positive and 0 when it is 0, and from a
non-negative value it never writes a negative one. -/
theorem c10_release_clamps_at_zero (L : Limiter) (store : Store) (ns key kind : String) :
    (∀ g, ((L.rules.nsRules.bind Rules.maxConcurrentJobs).bind
        ConcurrencyRules.kinds).bind (List.lookup kind) = some g → g ≠ 0 →
      readCount (unregisterNamespaceKind L store ns kind) (concNsKey L.id ns (some kind)) =
        (if readCount store (concNsKey L.id ns (some kind)) = 0 then 0
         else readCount store (concNsKey L.id ns (some kind)) - 1) ∧
      (0 ≤ readCount store (concNsKey L.id ns (some kind)) →
        0 ≤ readCount (unregisterNamespaceKind L store ns kind)
              (concNsKey L.id ns (some kind)))) ∧
    (∀ g, ((L.rules.keyspace.bind Rules.maxConcurrentJobs).bind
        ConcurrencyRules.kinds).bind (List.lookup kind) = some g → g ≠ 0 →
      readCount (unregisterKeyKind L store ns key kind) (concKeyKey L.id ns key (some kind)) =
        (if readCount store (concKeyKey L.id ns key (some kind)) = 0 then 0
         else readCount store (concKeyKey L.id ns key (some kind)) - 1) ∧
      (0 ≤ readCount store (concKeyKey L.id ns key (some kind)) →
        0 ≤ readCount (unregisterKeyKind L store ns key kind)
              (concKeyKey L.id ns key (some kind)))) ∧
    (∀ g, (L.rules.nsRules.bind Rules.maxConcurrentJobs).bind
        ConcurrencyRules.global = some g → g ≠ 0 →
      readCount (unregisterNamespaceJobGlobal L store ns) (concNsKey L.id ns none) =
        (if readCount store (concNsKey L.id ns none) = 0 then 0
         else readCount store (concNsKey L.id ns none) - 1) ∧
      (0 ≤ readCount store (concNsKey L.id ns none) →
        0 ≤ readCount (unregisterNamespaceJobGlobal L store ns) (concNsKey L.id ns none))) ∧
    (∀ g, (L.rules.keyspace.bind Rules.maxConcurrentJobs).bind
        ConcurrencyRules.global = some g → g ≠ 0 →
      readCount (unregisterKeyJobGlobal L store ns key) (concKeyKey L.id ns key none) =
        (if readCount store (concKeyKey L.id ns key none) = 0 then 0
         else readCount store (concKeyKey L.id ns key none) - 1) ∧
      (0 ≤ readCount store (concKeyKey L.id ns key none) →
        0 ≤ readCount (unregisterKeyJobGlobal L store ns key)
              (concKeyKey L.id ns key none))) := by
  refine ⟨?_, ?_, ?_, ?_⟩ <;>
    (intro g hg hg0
     simp only [unregisterNamespaceKind, unregisterKeyKind,
       unregisterNamespaceJobGlobal, unregisterKeyJobGlobal, hg]
     rw [if_neg hg0]
     rw [readCount_set_self]
     exact ⟨rfl, fun hnn => by split <;> omega⟩)

/-- Witness for `c10_release_clamps_at_zero`: releasing the namespace
kind counter from value 2 writes back 1. -/
theorem c10_release_clamps_at_zero_witness :
    readCount
        (unregisterNamespaceKind
          ⟨"i", { nsRules := some { maxConcurrentJobs := some { kinds := some [("a", 1)] } } }⟩
          [("rl-mcr-i-n-a", ⟨2, none⟩)] "n" "a")
        (concNsKey "i" "n" (some "a")) =
      (if readCount [("rl-mcr-i-n-a", ⟨2, none⟩)] (concNsKey "i" "n" (some "a")) = 0 then 0
       else readCount [("rl-mcr-i-n-a", ⟨2, none⟩)] (concNsKey "i" "n" (some "a")) - 1) :=
  ((c10_release_clamps_at_zero
      ⟨"i", { nsRules := some { maxConcurrentJobs := some { kinds := some [("a", 1)] } } }⟩
      [("rl-mcr-i-n-a", ⟨2, none⟩)] "n" "k" "a").1 1 (by decide) (by decide)).1

end JobRateLimiter


